import Mathlib

/- Verification development for the binary CAZyme/non-CAZyme classification
evaluation module of the pyrewton repository
(src/pyrewton/cazymes/prediction/stats/binary_cazyme_noncazyme_classification.py).

The Python module operates on pandas dataframes; here a classification matrix is
a list of rows, one per (protein accession, occurrence).  Library calls made by
the source are embedded by their documented semantics:

* `sklearn.metrics.confusion_matrix` infers the label set as the sorted set of
  values occurring in `y_true ++ y_pred` and returns the square matrix of pair
  counts; an out-of-range index into the returned array (Python `IndexError`)
  is modelled by `Option`/`Except` failure.
* `sklearn.metrics.recall_score` / `precision_score` / `f1_score` with default
  arguments (`pos_label=1`, `average="binary"`, `zero_division="warn"`) return
  0.0 when their denominator is zero.
* float `NaN` (numpy 0/0 division) is modelled as `none : Option ℚ`.
* `sklearn.utils.resample` and `random.sample` are modelled by passing the
  random draws explicitly (an index stream / a selection of distinct indices).
-/

namespace Pyrewton

/-- The six prediction tools handled by the module. -/
inductive Tool
  | dbCAN
  | HMMER
  | Hotpep
  | DIAMOND
  | CUPP
  | eCAMI
deriving DecidableEq

/-- The tool iteration order used throughout the source:
`["dbCAN", "HMMER", "Hotpep", "DIAMOND", "CUPP", "eCAMI"]`. -/
def toolList : List Tool :=
  [Tool.dbCAN, Tool.HMMER, Tool.Hotpep, Tool.DIAMOND, Tool.CUPP, Tool.eCAMI]

/-- Name of a tool, as the string used in the source. -/
def toolName : Tool → String
  | Tool.dbCAN => "dbCAN"
  | Tool.HMMER => "HMMER"
  | Tool.Hotpep => "Hotpep"
  | Tool.DIAMOND => "DIAMOND"
  | Tool.CUPP => "CUPP"
  | Tool.eCAMI => "eCAMI"

/-- A row of the classification dataframe built by `build_classification_df`:
one protein accession plus one binary classification per tool (columns in the
source's column order). -/
structure PreRow where
  accession : String
  dbCAN : Nat
  HMMER : Nat
  Hotpep : Nat
  DIAMOND : Nat
  CUPP : Nat
  eCAMI : Nat
deriving DecidableEq

/-- A row of the classification dataframe after `retrieve_ground_truths` has
added the `CAZy` ground-truth column. -/
structure ClassificationRow where
  accession : String
  dbCAN : Nat
  HMMER : Nat
  Hotpep : Nat
  DIAMOND : Nat
  CUPP : Nat
  eCAMI : Nat
  cazy : Nat
deriving DecidableEq

/-- The column of a classification row belonging to a given tool. -/
def ClassificationRow.col (r : ClassificationRow) : Tool → Nat
  | Tool.dbCAN => r.dbCAN
  | Tool.HMMER => r.HMMER
  | Tool.Hotpep => r.Hotpep
  | Tool.DIAMOND => r.DIAMOND
  | Tool.CUPP => r.CUPP
  | Tool.eCAMI => r.eCAMI

/-- One `[statistic, genomic_accession, tool, value]` entry of the
`summary_lists` built by `evaluate_binary_classification`.  The value is an
`Option ℚ`: `none` models the float `NaN` produced by a numpy `0/0`. -/
structure StatRecord where
  stat : String
  genome : String
  tool : String
  value : Option ℚ
deriving DecidableEq

/-- Sorted list of the distinct values occurring in `l` (the label inference
performed by `sklearn.metrics.confusion_matrix`). -/
def labelsOf (l : List Nat) : List Nat :=
  (List.range (l.foldr max 0 + 1)).filter (fun x => decide (x ∈ l))

/-- Number of sample positions where the true label is `a` and the predicted
label is `b`. -/
def cmEntry (y_true y_pred : List Nat) (a b : Nat) : Nat :=
  (y_true.zip y_pred).countP (fun x => x.1 == a && x.2 == b)

/-- Embedding of `sklearn.metrics.confusion_matrix`: the square matrix of pair
counts over the inferred label set. -/
def confusion_matrix (y_true y_pred : List Nat) : List (List Nat) :=
  (labelsOf (y_true ++ y_pred)).map
    (fun a => (labelsOf (y_true ++ y_pred)).map (fun b => cmEntry y_true y_pred a b))

/-- Indexing `cm[i][j]` into a nested list; `none` models a Python
`IndexError`. -/
def idx2 (cm : List (List Nat)) (i j : Nat) : Option Nat :=
  (cm.get? i).bind (fun row => row.get? j)

/-- Embedding of the source's `calc_acc`: reads `tn = cm[0][0]`,
`fn = cm[1][0]`, `tp = cm[1][1]`, `fp = cm[0][1]` off the confusion matrix and
returns `(tp + tn) / (tp + fp + fn + tn)`; `none` models the run aborting with
an `IndexError` when the confusion matrix is smaller than 2×2. -/
def calc_acc (y_true y_pred : List Nat) : Option ℚ :=
  let cm := confusion_matrix y_true y_pred
  match idx2 cm 0 0, idx2 cm 1 0, idx2 cm 1 1, idx2 cm 0 1 with
  | some tn, some fn, some tp, some fp =>
      some (((tp : ℚ) + tn) / ((tp : ℚ) + fp + fn + tn))
  | _, _, _, _ => none

/-- One `[protein_accession, prediction_tool, cazyme_classification]` entry of
the long-form classifications list handled by the module. -/
abbrev Classification := String × String × Nat

/-- The fields of a `CazymeProteinPrediction` instance that the module reads. -/
structure CazymeProteinPrediction where
  protein_accession : String
  cazyme_classification : Nat
deriving DecidableEq

/-- Embedding of the source's `get_prediction_classifications`: for eCAMI and
CUPP the recorded accession is `prediction.protein_accession.split(" ")[0]`,
for every other tool the accession is recorded unchanged; each prediction
appends one `[accession, tool, classification]` entry to the accumulator. -/
def get_prediction_classifications (tool_predictions : List CazymeProteinPrediction)
    (prediction_tool : String) (classifications : List Classification) :
    List Classification :=
  if prediction_tool = "eCAMI" ∨ prediction_tool = "CUPP" then
    tool_predictions.foldl
      (fun acc p =>
        acc ++ [((p.protein_accession.splitOn " ").headD "", prediction_tool,
                 p.cazyme_classification)])
      classifications
  else
    tool_predictions.foldl
      (fun acc p => acc ++ [(p.protein_accession, prediction_tool, p.cazyme_classification)])
      classifications

/-- Errors raised while building the classification dataframe: a Python
`KeyError` (which carries the missing key) or `IndexError` (which carries no
useful data). -/
inductive BuildError
  | keyError (key : String)
  | indexError
deriving DecidableEq

/-- Insertion-ordered mapping tool name to the list of classifications
collected for it (inner dict of `classification_dict`). -/
abbrev ToolMap := List (String × List Nat)

/-- Insertion-ordered mapping protein accession to its `ToolMap` (the
`classification_dict` of `build_classification_df`). -/
abbrev CDict := List (String × ToolMap)

/-- The inner try/except of `build_classification_df`: append the
classification to the tool's list when the tool key exists, otherwise insert
the tool with a fresh one-element list. -/
def addToToolMap : ToolMap → String → Nat → ToolMap
  | [], tool, c => [(tool, [c])]
  | (t, cs) :: rest, tool, c =>
    if t = tool then (t, cs ++ [c]) :: rest
    else (t, cs) :: addToToolMap rest tool c

/-- The outer try/except of `build_classification_df`: update the accession's
tool map when the accession key exists, otherwise insert the accession. -/
def addToCDict : CDict → String → String → Nat → CDict
  | [], acc, tool, c => [(acc, [(tool, [c])])]
  | (a, tm) :: rest, acc, tool, c =>
    if a = acc then (a, addToToolMap tm tool c) :: rest
    else (a, tm) :: addToCDict rest acc tool c

/-- The first loop of `build_classification_df`: fold the long-form
classification entries into `classification_dict`. -/
def build_dict (classifications : List Classification) : CDict :=
  classifications.foldl (fun d c => addToCDict d c.1 c.2.1 c.2.2) []

/-- Reading `classification_dict[accession][tool][i]`: a missing tool key is a
`KeyError`, an out-of-range occurrence index an `IndexError`. -/
def getToolEntry (tm : ToolMap) (tool : String) (i : Nat) : Except BuildError Nat :=
  match tm.lookup tool with
  | none => Except.error (BuildError.keyError tool)
  | some cs =>
    match cs.get? i with
    | none => Except.error BuildError.indexError
    | some v => Except.ok v

/-- The row-emission loop of `build_classification_df` for one accession: one
row per index `i` in `range(len(classification_dict[accession]["dbCAN"]))`,
each row reading every tool's list at position `i`. -/
def rowsForAccession (a : String) (tm : ToolMap) : Except BuildError (List PreRow) :=
  match tm.lookup "dbCAN" with
  | none => Except.error (BuildError.keyError "dbCAN")
  | some dbcs =>
    (List.range dbcs.length).mapM (fun i => do
      let v1 ← getToolEntry tm "dbCAN" i
      let v2 ← getToolEntry tm "HMMER" i
      let v3 ← getToolEntry tm "Hotpep" i
      let v4 ← getToolEntry tm "DIAMOND" i
      let v5 ← getToolEntry tm "CUPP" i
      let v6 ← getToolEntry tm "eCAMI" i
      pure (PreRow.mk a v1 v2 v3 v4 v5 v6))

/-- Embedding of the source's `build_classification_df`: build
`classification_dict` and emit the per-accession rows in insertion order. -/
def build_classification_df (classifications : List Classification) :
    Except BuildError (List PreRow) := do
  let rowBlocks ← (build_dict classifications).mapM (fun p => rowsForAccession p.1 p.2)
  pure rowBlocks.flatten

/-- Embedding of the source's `retrieve_ground_truths`: append a `CAZy` column
whose value is 1 when `cazy_dict[accession]` succeeds and 0 on `KeyError`. -/
def retrieve_ground_truths (classifications_df : List PreRow)
    (cazy_dict : List (String × List String)) : List ClassificationRow :=
  classifications_df.map (fun r =>
    ClassificationRow.mk r.accession r.dbCAN r.HMMER r.Hotpep r.DIAMOND r.CUPP r.eCAMI
      (if (cazy_dict.lookup r.accession).isSome then 1 else 0))

/-- Input for the alignment-mismatch scenario: accession `a1` has one
prediction from each tool but a second prediction from eCAMI. -/
def mismatchedInput : List Classification :=
  [("a1", "dbCAN", 1), ("a1", "HMMER", 1), ("a1", "Hotpep", 1),
   ("a1", "DIAMOND", 1), ("a1", "CUPP", 1), ("a1", "eCAMI", 1), ("a1", "eCAMI", 0)]

/-- Input for the missing-tool scenario: accession `a1` has a dbCAN record but
no record from any other tool. -/
def missingToolInput : List Classification :=
  [("a1", "dbCAN", 1)]

end Pyrewton
namespace Pyrewton

/-- Division `a / b` of two numpy integer scalars as performed by the source's
`tn / (tn + fp)` and accuracy lines: a rational when the denominator is
nonzero, the float `NaN` (modelled `none`) on the `0 / 0` case. -/
def npDiv (a b : Nat) : Option ℚ :=
  if b = 0 then none else some ((a : ℚ) / (b : ℚ))

/-- True positives as counted by the sklearn binary scores (`pos_label=1`). -/
def sk_tp (y_true y_pred : List Nat) : Nat :=
  (y_true.zip y_pred).countP (fun x => x.1 == 1 && x.2 == 1)

/-- False negatives as counted by the sklearn binary scores. -/
def sk_fn (y_true y_pred : List Nat) : Nat :=
  (y_true.zip y_pred).countP (fun x => x.1 == 1 && !(x.2 == 1))

/-- False positives as counted by the sklearn binary scores. -/
def sk_fp (y_true y_pred : List Nat) : Nat :=
  (y_true.zip y_pred).countP (fun x => !(x.1 == 1) && x.2 == 1)

/-- Embedding of `sklearn.metrics.recall_score` with default arguments:
`tp / (tp + fn)`, returning 0 when the denominator is zero. -/
def recall_score (y_true y_pred : List Nat) : ℚ :=
  if sk_tp y_true y_pred + sk_fn y_true y_pred = 0 then 0
  else (sk_tp y_true y_pred : ℚ) / ((sk_tp y_true y_pred : ℚ) + (sk_fn y_true y_pred : ℚ))

/-- Embedding of `sklearn.metrics.precision_score` with default arguments:
`tp / (tp + fp)`, returning 0 when the denominator is zero. -/
def precision_score (y_true y_pred : List Nat) : ℚ :=
  if sk_tp y_true y_pred + sk_fp y_true y_pred = 0 then 0
  else (sk_tp y_true y_pred : ℚ) / ((sk_tp y_true y_pred : ℚ) + (sk_fp y_true y_pred : ℚ))

/-- Embedding of `sklearn.metrics.f1_score` with default arguments:
`2·P·R / (P + R)`, returning 0 when precision plus recall is zero. -/
def f1_score (y_true y_pred : List Nat) : ℚ :=
  if precision_score y_true y_pred + recall_score y_true y_pred = 0 then 0
  else 2 * precision_score y_true y_pred * recall_score y_true y_pred /
        (precision_score y_true y_pred + recall_score y_true y_pred)

/-- The per-tool body of `evaluate_binary_classification`: read `tn`, `fn`,
`tp`, `fp` off the confusion matrix (an out-of-range read aborts with
`IndexError`) and append the five statistic records in source order. -/
def evalTool (y_true y_pred : List Nat) (genome tool : String) :
    Except String (List StatRecord) :=
  match idx2 (confusion_matrix y_true y_pred) 0 0, idx2 (confusion_matrix y_true y_pred) 1 0,
        idx2 (confusion_matrix y_true y_pred) 1 1, idx2 (confusion_matrix y_true y_pred) 0 1 with
  | some tn, some fn, some tp, some fp =>
    Except.ok
      [StatRecord.mk "Specificity" genome tool (npDiv tn (tn + fp)),
       StatRecord.mk "Recall" genome tool (some (recall_score y_true y_pred)),
       StatRecord.mk "Precision" genome tool (some (precision_score y_true y_pred)),
       StatRecord.mk "F1-score" genome tool (some (f1_score y_true y_pred)),
       StatRecord.mk "Accuracy" genome tool (npDiv (tp + tn) (tp + fp + fn + tn))]
  | _, _, _, _ => Except.error "IndexError"

/-- The tool loop of `evaluate_binary_classification`; the first Python
exception aborts the whole call. -/
def eval_tools (y_true : List Nat) (df : List ClassificationRow) (genome : String) :
    List Tool → Except String (List StatRecord)
  | [] => Except.ok []
  | t :: rest =>
    match evalTool y_true (df.map (fun r => r.col t)) genome (toolName t),
          eval_tools y_true df genome rest with
    | Except.ok a, Except.ok b => Except.ok (a ++ b)
    | Except.error e, _ => Except.error e
    | Except.ok _, Except.error e => Except.error e

/-- Embedding of the source's `evaluate_binary_classification`: `y_true` is
the `CAZy` column; the six tools are evaluated in `toolList` order and their
records concatenated. -/
def evaluate_binary_classification (classifications_df : List ClassificationRow)
    (genomic_accession : String) : Except String (List StatRecord) :=
  eval_tools (classifications_df.map (fun r => r.cazy)) classifications_df
    genomic_accession toolList

/-- A classification matrix is binary: every tool column and the ground-truth
column hold only 0/1 values. -/
def binaryMatrix (df : List ClassificationRow) : Prop :=
  ∀ r ∈ df, r.cazy ≤ 1 ∧ r.dbCAN ≤ 1 ∧ r.HMMER ≤ 1 ∧ r.Hotpep ≤ 1 ∧
    r.DIAMOND ≤ 1 ∧ r.CUPP ≤ 1 ∧ r.eCAMI ≤ 1

instance (df : List ClassificationRow) : Decidable (binaryMatrix df) := by
  unfold binaryMatrix
  infer_instance

/-- True negatives of a tool against the `CAZy` column, as the claim counts
them. -/
def specTN (df : List ClassificationRow) (t : Tool) : Nat :=
  df.countP (fun r => r.cazy == 0 && r.col t == 0)

/-- False positives of a tool against the `CAZy` column. -/
def specFP (df : List ClassificationRow) (t : Tool) : Nat :=
  df.countP (fun r => r.cazy == 0 && r.col t == 1)

/-- False negatives of a tool against the `CAZy` column. -/
def specFN (df : List ClassificationRow) (t : Tool) : Nat :=
  df.countP (fun r => r.cazy == 1 && r.col t == 0)

/-- True positives of a tool against the `CAZy` column. -/
def specTP (df : List ClassificationRow) (t : Tool) : Nat :=
  df.countP (fun r => r.cazy == 1 && r.col t == 1)

/-- The five statistic records the claim specifies for one tool (Specificity,
Recall, Precision, F1, Accuracy, in the source's emission order), with the
claim's formulas over the confusion-matrix counts. -/
def spec_statRecords (df : List ClassificationRow) (genome : String) (t : Tool) :
    List StatRecord :=
  [StatRecord.mk "Specificity" genome (toolName t)
     (some ((specTN df t : ℚ) / ((specTN df t : ℚ) + (specFP df t : ℚ)))),
   StatRecord.mk "Recall" genome (toolName t)
     (some ((specTP df t : ℚ) / ((specTP df t : ℚ) + (specFN df t : ℚ)))),
   StatRecord.mk "Precision" genome (toolName t)
     (some ((specTP df t : ℚ) / ((specTP df t : ℚ) + (specFP df t : ℚ)))),
   StatRecord.mk "F1-score" genome (toolName t)
     (some (2 * ((specTP df t : ℚ) / ((specTP df t : ℚ) + (specFP df t : ℚ)))
              * ((specTP df t : ℚ) / ((specTP df t : ℚ) + (specFN df t : ℚ))) /
            (((specTP df t : ℚ) / ((specTP df t : ℚ) + (specFP df t : ℚ)))
              + ((specTP df t : ℚ) / ((specTP df t : ℚ) + (specFN df t : ℚ)))))),
   StatRecord.mk "Accuracy" genome (toolName t)
     (some (((specTP df t : ℚ) + (specTN df t : ℚ)) /
            ((specTP df t : ℚ) + (specFP df t : ℚ) + (specFN df t : ℚ) + (specTN df t : ℚ))))]

/-- A small binary classification matrix containing one CAZyme and one
non-CAZyme row, used to instantiate the evaluator theorems. -/
def witnessMatrix : List ClassificationRow :=
  [ClassificationRow.mk "w1" 1 1 1 1 1 1 1,
   ClassificationRow.mk "w2" 0 0 0 0 0 0 0]

/-- A classification matrix whose `CAZy` column contains no negatives, so
every tool's specificity denominator `tn + fp` is zero. -/
def undefinedSpecInput : List ClassificationRow :=
  [ClassificationRow.mk "p1" 1 1 1 1 1 1 1,
   ClassificationRow.mk "p2" 0 0 0 0 0 0 1]

/-- A per-test-set classification dataframe together with its metadata (the
`ClassificationDF` objects the bootstrap receives). -/
structure ClassificationDF where
  genome_id : String
  df : List ClassificationRow
deriving DecidableEq, Inhabited

/-- The two-column array `pd.concat([df.df[tool], df.df["CAZy"]], axis=1)`:
one (prediction, ground truth) pair per row. -/
def temp_pairs (d : ClassificationDF) (t : Tool) : List (Nat × Nat) :=
  d.df.map (fun r => (r.col t, r.cazy))

/-- Embedding of `sklearn.utils.resample(arr)`: draw `len(arr)` row indices
uniformly in `[0, len(arr))` with replacement.  The RNG's draws are the
explicit stream `r`, reduced modulo the row count. -/
def resample (arr : List (Nat × Nat)) (r : Nat → Nat) : List (Nat × Nat) :=
  (List.range arr.length).map (fun i => arr.getD (r i % arr.length) (0, 0))

/-- The `n` resamples drawn by the loop of `bootstrap_acc`; `rng j` is the
index stream used by the j-th iteration. -/
def bootstrap_samples (df_array : List (Nat × Nat)) (n : Nat)
    (rng : Nat → Nat → Nat) : List (List (Nat × Nat)) :=
  (List.range n).map (fun j => resample df_array (rng j))

/-- The accuracy loop of `bootstrap_acc`:
`calc_acc(sample[:, 1], sample[:, 0])` per resample, in order; the first
`IndexError` inside `calc_acc` aborts the whole call. -/
def accs_of_samples : List (List (Nat × Nat)) → Except String (List ℚ)
  | [] => Except.ok []
  | s :: rest =>
    match calc_acc (s.map Prod.snd) (s.map Prod.fst), accs_of_samples rest with
    | some q, Except.ok qs => Except.ok (q :: qs)
    | some _, Except.error e => Except.error e
    | none, _ => Except.error "IndexError"

/-- Embedding of the source's `bootstrap_acc`: accuracy of each of the `n`
resamples of the two-column array. -/
def bootstrap_acc (df_array : List (Nat × Nat)) (n : Nat)
    (rng : Nat → Nat → Nat) : Except String (List ℚ) :=
  accs_of_samples (bootstrap_samples df_array n rng)

/-- One `[genomic_accession, prediction_tool, bootstrap_number, accuracy]`
result row of `bootstrap_binary_classifications`. -/
abbrev BootstrapEntry := String × String × Nat × ℚ

/-- The per-test-set loop of `bootstrap_binary_classifications` for one tool:
bootstrap each drawn dataframe and emit one entry per resample, numbering the
resamples from 1. -/
def run_dfs (t : Tool) (n : Nat) (R2 : Nat → Nat → Nat → Nat) :
    List ClassificationDF → Except String (List BootstrapEntry)
  | [] => Except.ok []
  | d :: rest =>
    match bootstrap_acc (temp_pairs d t) n (R2 0),
          run_dfs t n (fun a => R2 (a + 1)) rest with
    | Except.ok bs, Except.ok es =>
        Except.ok ((bs.enum.map (fun p => (d.genome_id, toolName t, p.1 + 1, p.2))) ++ es)
    | Except.error e, _ => Except.error e
    | Except.ok _, Except.error e => Except.error e

/-- The tool loop of `bootstrap_binary_classifications`. -/
def run_tools (binary_dfs : List ClassificationDF) (n : Nat)
    (R : Nat → Nat → Nat → Nat → Nat) :
    List Tool → Except String (List BootstrapEntry)
  | [] => Except.ok []
  | t :: rest =>
    match run_dfs t n (R 0) binary_dfs,
          run_tools binary_dfs n (fun a => R (a + 1)) rest with
    | Except.ok e1, Except.ok e2 => Except.ok (e1 ++ e2)
    | Except.error e, _ => Except.error e
    | Except.ok _, Except.error e => Except.error e

/-- Embedding of `random.sample(population, k)`: a `ValueError` unless
`0 ≤ k ≤ len(population)`, otherwise the elements at the RNG's chosen
positions `sel` (`random.sample`'s contract makes `sel` a list of `k`
distinct in-range indices; theorems state those properties as hypotheses). -/
def random_sample (population : List ClassificationDF) (k : ℤ) (sel : List Nat) :
    Except String (List ClassificationDF) :=
  if k < 0 ∨ (population.length : ℤ) < k then
    Except.error "ValueError: Sample larger than population or is negative"
  else Except.ok (sel.map (fun i => population.getD i default))

/-- Embedding of the source's `bootstrap_binary_classifications`: draw
`args.bs_sample_size` dataframes without replacement, then for every tool and
every drawn dataframe record `args.bs_resampling` bootstrapped accuracies. -/
def bootstrap_binary_classifications (all_binary_dfs : List ClassificationDF)
    (k : ℤ) (n : Nat) (sel : List Nat) (R : Nat → Nat → Nat → Nat → Nat) :
    Except String (List BootstrapEntry) :=
  match random_sample all_binary_dfs k sel with
  | Except.error e => Except.error e
  | Except.ok binary_dfs => run_tools binary_dfs n R toolList

/-- A concrete test-set dataframe used to instantiate the bootstrap
theorems. -/
def exampleDF : ClassificationDF :=
  ClassificationDF.mk "g0" witnessMatrix

end Pyrewton

namespace Pyrewton

/-- Key lookup in an association list succeeds exactly when the key occurs in
the list of keys. -/
theorem lookup_isSome_iff_mem_keys {β : Type} (l : List (String × β)) (a : String) :
    ((l.lookup a).isSome = true) ↔ a ∈ l.map Prod.fst := by
  induction l with
  | nil => simp [List.lookup]
  | cons hd t ih =>
    obtain ⟨k, v⟩ := hd
    by_cases hak : a = k
    · simp [List.lookup_cons, hak]
    · have hbeq : (a == k) = false := by simp [hak]
      simp [List.lookup_cons, hbeq, ih, hak]

/-- Folding "append one transformed element" over a list extends the
accumulator by the mapped list. -/
theorem foldl_append_singleton {α β : Type} (f : α → β) :
    ∀ (l : List α) (acc : List β),
      l.foldl (fun a x => a ++ [f x]) acc = acc ++ l.map f
  | [], acc => by simp
  | x :: t, acc => by
    simp only [List.foldl_cons, List.map_cons]
    rw [foldl_append_singleton f t (acc ++ [f x])]
    simp

/-- C10: collecting a tool's binary classifications records, for eCAMI and
CUPP, the accession cut at the first space, and for every other tool the
accession unchanged; the accumulator is extended by exactly one
`(accession, tool, classification)` entry per prediction record. -/
theorem get_prediction_classifications_spec
    (tool_predictions : List CazymeProteinPrediction) (prediction_tool : String)
    (classifications : List Classification) :
    get_prediction_classifications tool_predictions prediction_tool classifications =
      classifications ++ tool_predictions.map (fun p =>
        ((if prediction_tool = "eCAMI" ∨ prediction_tool = "CUPP" then
            (p.protein_accession.splitOn " ").headD ""
          else p.protein_accession),
         prediction_tool, p.cazyme_classification)) := by
  unfold get_prediction_classifications
  by_cases h : prediction_tool = "eCAMI" ∨ prediction_tool = "CUPP"
  · rw [if_pos h, foldl_append_singleton]
    congr 1
    apply List.map_congr_left
    intro p _
    rw [if_pos h]
  · rw [if_neg h, foldl_append_singleton]
    congr 1
    apply List.map_congr_left
    intro p _
    rw [if_neg h]

/-- C2: the ground-truth value `retrieve_ground_truths` assigns to each row is
1 exactly when the row's accession occurs among the keys of `cazy_dict`, and 0
otherwise; the per-tool prediction columns are passed through unchanged and do
not influence the value. -/
theorem retrieve_ground_truths_key_membership (df : List PreRow)
    (cazy_dict : List (String × List String)) :
    retrieve_ground_truths df cazy_dict =
      df.map (fun r =>
        ClassificationRow.mk r.accession r.dbCAN r.HMMER r.Hotpep r.DIAMOND r.CUPP r.eCAMI
          (if r.accession ∈ cazy_dict.map Prod.fst then 1 else 0)) := by
  unfold retrieve_ground_truths
  apply List.map_congr_left
  intro r _
  by_cases h : r.accession ∈ cazy_dict.map Prod.fst
  · rw [if_pos ((lookup_isSome_iff_mem_keys cazy_dict r.accession).mpr h), if_pos h]
  · rw [if_neg (fun hs => h ((lookup_isSome_iff_mem_keys cazy_dict r.accession).mp hs)),
        if_neg h]

/-- C3: when eCAMI reports two predictions for accession `a1` while every
other tool reports one, `build_classification_df` raises no error at all: the
row loop runs over dbCAN's count only, so the build succeeds with a single row
and eCAMI's second prediction is silently dropped — no `AlignmentMismatch`
with the accession and the conflicting counts is surfaced. -/
theorem build_silently_truncates_on_count_mismatch :
    build_classification_df mismatchedInput = Except.ok [PreRow.mk "a1" 1 1 1 1 1 1] := by
  rfl

/-- C6: when accession `a1` has a dbCAN prediction but no HMMER prediction,
`build_classification_df` aborts with a bare `KeyError` carrying only the
missing tool name — the build does abort and nothing is defaulted to 0, but no
`MissingToolOutput` error identifying both the accession and the tool is
signalled. -/
theorem build_missing_tool_raises_keyerror :
    build_classification_df missingToolInput = Except.error (BuildError.keyError "HMMER") := by
  rfl

/-- C4: For the one-row binary sample whose prediction and ground truth are
both 1 (a perfectly correct, all-positive bootstrap resample), the source's
`calc_acc` does not return an accuracy at all: `confusion_matrix` infers the
single label `1`, returns a 1×1 matrix, and the read of `cm[1][0]` aborts with
an `IndexError` (modelled by `none`), contradicting the claim that accuracy is
defined and in [0, 1] for every non-empty binary sample. -/
theorem calc_acc_fails_on_uniform_positive_sample :
    calc_acc [1] [1] = none := by
  decide

/-- The fold of `max` over a list of naturals bounded by `b` is bounded by
`b`. -/
theorem foldr_max_le (l : List Nat) (b : Nat) (h : ∀ x ∈ l, x ≤ b) :
    l.foldr max 0 ≤ b := by
  induction l with
  | nil => simp
  | cons a t ih =>
    simp only [List.foldr_cons]
    exact max_le (h a (List.mem_cons_self a t))
      (ih (fun x hx => h x (List.mem_cons_of_mem a hx)))

/-- Every member of a list of naturals is bounded by the fold of `max` over
it. -/
theorem le_foldr_max (l : List Nat) (x : Nat) (h : x ∈ l) :
    x ≤ l.foldr max 0 := by
  induction l with
  | nil => cases h
  | cons a t ih =>
    simp only [List.foldr_cons]
    rcases List.mem_cons.mp h with h1 | h2
    · rw [h1]
      exact le_max_left _ _
    · exact le_trans (ih h2) (le_max_right _ _)

/-- On binary data containing both classes, sklearn's inferred label set is
exactly `[0, 1]`. -/
theorem labelsOf_binary (l : List Nat) (hb : ∀ x ∈ l, x ≤ 1)
    (h0 : (0 : Nat) ∈ l) (h1 : (1 : Nat) ∈ l) : labelsOf l = [0, 1] := by
  unfold labelsOf
  have hmax : l.foldr max 0 = 1 :=
    le_antisymm (foldr_max_le l 1 hb) (le_foldr_max l 1 h1)
  rw [hmax]
  show (List.range 2).filter (fun x => decide (x ∈ l)) = [0, 1]
  have hr : List.range 2 = [0, 1] := rfl
  rw [hr]
  simp [List.filter_cons, h0, h1]

/-- On binary data containing both classes, the confusion matrix is the 2×2
matrix of pair counts with rows/columns ordered `[0, 1]`. -/
theorem confusion_matrix_binary (y_true y_pred : List Nat)
    (hb : ∀ x ∈ y_true ++ y_pred, x ≤ 1) (h0 : (0 : Nat) ∈ y_true ++ y_pred)
    (h1 : (1 : Nat) ∈ y_true ++ y_pred) :
    confusion_matrix y_true y_pred =
      [[cmEntry y_true y_pred 0 0, cmEntry y_true y_pred 0 1],
       [cmEntry y_true y_pred 1 0, cmEntry y_true y_pred 1 1]] := by
  unfold confusion_matrix
  rw [labelsOf_binary _ hb h0 h1]
  rfl

/-- Counting a conjunctive predicate splits over the two possible values of a
binary component. -/
theorem countP_and_split {α : Type} (L : List α) (g : α → Nat) (p : α → Bool)
    (hb : ∀ x ∈ L, g x ≤ 1) :
    L.countP (fun x => p x && g x == 0) + L.countP (fun x => p x && g x == 1)
      = L.countP p := by
  induction L with
  | nil => simp
  | cons a t ih =>
    have ha : g a ≤ 1 := hb a (List.mem_cons_self a t)
    have IH := ih (fun x hx => hb x (List.mem_cons_of_mem a hx))
    have h2 : g a = 0 ∨ g a = 1 := by omega
    simp only [List.countP_cons]
    rcases h2 with h2 | h2 <;> cases hp : p a <;> simp [h2, hp] <;> omega

/-- The counts of the two values of a binary component sum to the list
length. -/
theorem countP_binary_total {α : Type} (L : List α) (g : α → Nat)
    (hb : ∀ x ∈ L, g x ≤ 1) :
    L.countP (fun x => g x == 0) + L.countP (fun x => g x == 1) = L.length := by
  induction L with
  | nil => simp
  | cons a t ih =>
    have ha : g a ≤ 1 := hb a (List.mem_cons_self a t)
    have IH := ih (fun x hx => hb x (List.mem_cons_of_mem a hx))
    have h2 : g a = 0 ∨ g a = 1 := by omega
    simp only [List.countP_cons, List.length_cons]
    rcases h2 with h2 | h2 <;> simp [h2] <;> omega

/-- The `cm[0][0]` entry of a tool's confusion matrix is the claim's TN
count. -/
theorem cm_TN (df : List ClassificationRow) (t : Tool) :
    cmEntry (df.map (fun r => r.cazy)) (df.map (fun r => r.col t)) 0 0 = specTN df t := by
  unfold cmEntry specTN
  rw [List.zip_map', List.countP_map]
  rfl

/-- The `cm[0][1]` entry of a tool's confusion matrix is the claim's FP
count. -/
theorem cm_FP (df : List ClassificationRow) (t : Tool) :
    cmEntry (df.map (fun r => r.cazy)) (df.map (fun r => r.col t)) 0 1 = specFP df t := by
  unfold cmEntry specFP
  rw [List.zip_map', List.countP_map]
  rfl

/-- The `cm[1][0]` entry of a tool's confusion matrix is the claim's FN
count. -/
theorem cm_FN (df : List ClassificationRow) (t : Tool) :
    cmEntry (df.map (fun r => r.cazy)) (df.map (fun r => r.col t)) 1 0 = specFN df t := by
  unfold cmEntry specFN
  rw [List.zip_map', List.countP_map]
  rfl

/-- The `cm[1][1]` entry of a tool's confusion matrix is the claim's TP
count. -/
theorem cm_TP (df : List ClassificationRow) (t : Tool) :
    cmEntry (df.map (fun r => r.cazy)) (df.map (fun r => r.col t)) 1 1 = specTP df t := by
  unfold cmEntry specTP
  rw [List.zip_map', List.countP_map]
  rfl

/-- The ground-truth column of a binary matrix is 0/1-valued. -/
theorem binaryMatrix_cazy {df : List ClassificationRow} (hb : binaryMatrix df) :
    ∀ x ∈ df.map (fun r => r.cazy), x ≤ 1 := by
  intro x hx
  rcases List.mem_map.mp hx with ⟨r, hr, rfl⟩
  exact (hb r hr).1

/-- Row form of `binaryMatrix_cazy`. -/
theorem binaryMatrix_cazy_row {df : List ClassificationRow} (hb : binaryMatrix df) :
    ∀ r ∈ df, r.cazy ≤ 1 :=
  fun r hr => (hb r hr).1

/-- Every tool column of a binary matrix is 0/1-valued. -/
theorem binaryMatrix_col_row {df : List ClassificationRow} (hb : binaryMatrix df)
    (t : Tool) : ∀ r ∈ df, r.col t ≤ 1 := by
  intro r hr
  rcases hb r hr with ⟨h1, h2, h3, h4, h5, h6, h7⟩
  cases t
  exacts [h2, h3, h4, h5, h6, h7]

/-- Mapped form of `binaryMatrix_col_row`. -/
theorem binaryMatrix_col {df : List ClassificationRow} (hb : binaryMatrix df)
    (t : Tool) : ∀ x ∈ df.map (fun r => r.col t), x ≤ 1 := by
  intro x hx
  rcases List.mem_map.mp hx with ⟨r, hr, rfl⟩
  exact binaryMatrix_col_row hb t r hr

/-- TN and FP partition the ground-truth negatives. -/
theorem specTN_add_specFP {df : List ClassificationRow} (hb : binaryMatrix df)
    (t : Tool) :
    specTN df t + specFP df t = df.countP (fun r => r.cazy == 0) :=
  countP_and_split df (fun r => r.col t) (fun r => r.cazy == 0)
    (binaryMatrix_col_row hb t)

/-- FN and TP partition the ground-truth positives. -/
theorem specFN_add_specTP {df : List ClassificationRow} (hb : binaryMatrix df)
    (t : Tool) :
    specFN df t + specTP df t = df.countP (fun r => r.cazy == 1) :=
  countP_and_split df (fun r => r.col t) (fun r => r.cazy == 1)
    (binaryMatrix_col_row hb t)

/-- Ground-truth negatives and positives partition the rows. -/
theorem cazy_count_total {df : List ClassificationRow} (hb : binaryMatrix df) :
    df.countP (fun r => r.cazy == 0) + df.countP (fun r => r.cazy == 1) = df.length :=
  countP_binary_total df (fun r => r.cazy) (binaryMatrix_cazy_row hb)

/-- A 0 in the ground-truth column makes the negative count positive. -/
theorem countP_cazy0_pos {df : List ClassificationRow}
    (h0 : (0 : Nat) ∈ df.map (fun r => r.cazy)) :
    0 < df.countP (fun r => r.cazy == 0) := by
  rcases List.mem_map.mp h0 with ⟨r, hr, hc⟩
  exact List.countP_pos_iff.mpr ⟨r, hr, by simp [hc]⟩

/-- A 1 in the ground-truth column makes the positive count positive. -/
theorem countP_cazy1_pos {df : List ClassificationRow}
    (h1 : (1 : Nat) ∈ df.map (fun r => r.cazy)) :
    0 < df.countP (fun r => r.cazy == 1) := by
  rcases List.mem_map.mp h1 with ⟨r, hr, hc⟩
  exact List.countP_pos_iff.mpr ⟨r, hr, by simp [hc]⟩

/-- sklearn's tp count on a tool column coincides with the claim's TP. -/
theorem sk_tp_eq (df : List ClassificationRow) (t : Tool) :
    sk_tp (df.map (fun r => r.cazy)) (df.map (fun r => r.col t)) = specTP df t := by
  unfold sk_tp specTP
  rw [List.zip_map', List.countP_map]
  rfl

/-- sklearn's fn count on a 0/1 tool column coincides with the claim's FN. -/
theorem sk_fn_eq (df : List ClassificationRow) (t : Tool)
    (hcol : ∀ r ∈ df, r.col t ≤ 1) :
    sk_fn (df.map (fun r => r.cazy)) (df.map (fun r => r.col t)) = specFN df t := by
  unfold sk_fn specFN
  rw [List.zip_map', List.countP_map]
  apply List.countP_congr
  intro r hr
  have h := hcol r hr
  rcases Nat.le_one_iff_eq_zero_or_eq_one.mp h with h1 | h1 <;>
    simp [Function.comp, h1]

/-- sklearn's fp count on a 0/1 ground-truth column coincides with the
claim's FP. -/
theorem sk_fp_eq (df : List ClassificationRow) (t : Tool)
    (hcazy : ∀ r ∈ df, r.cazy ≤ 1) :
    sk_fp (df.map (fun r => r.cazy)) (df.map (fun r => r.col t)) = specFP df t := by
  unfold sk_fp specFP
  rw [List.zip_map', List.countP_map]
  apply List.countP_congr
  intro r hr
  have h := hcazy r hr
  rcases Nat.le_one_iff_eq_zero_or_eq_one.mp h with h1 | h1 <;>
    simp [Function.comp, h1]

/-- The per-tool evaluation body produces exactly the five statistic records
of the claim, with the claim's formulas, whenever the matrix is binary and
its ground-truth column contains both classes. -/
theorem evalTool_eq (df : List ClassificationRow) (t : Tool) (genome : String)
    (hb : binaryMatrix df) (h0 : (0 : Nat) ∈ df.map (fun r => r.cazy))
    (h1 : (1 : Nat) ∈ df.map (fun r => r.cazy)) :
    evalTool (df.map (fun r => r.cazy)) (df.map (fun r => r.col t)) genome (toolName t)
      = Except.ok (spec_statRecords df genome t) := by
  have hcomb : ∀ x ∈ df.map (fun r => r.cazy) ++ df.map (fun r => r.col t), x ≤ 1 := by
    intro x hx
    rcases List.mem_append.mp hx with hx | hx
    · exact binaryMatrix_cazy hb x hx
    · exact binaryMatrix_col hb t x hx
  have h0c : (0 : Nat) ∈ df.map (fun r => r.cazy) ++ df.map (fun r => r.col t) :=
    List.mem_append_left _ h0
  have h1c : (1 : Nat) ∈ df.map (fun r => r.cazy) ++ df.map (fun r => r.col t) :=
    List.mem_append_left _ h1
  have hcm := confusion_matrix_binary (df.map (fun r => r.cazy))
    (df.map (fun r => r.col t)) hcomb h0c h1c
  have hneg := specTN_add_specFP hb t
  have hpos := specFN_add_specTP hb t
  have htot := cazy_count_total hb
  have hneg0 := countP_cazy0_pos h0
  have hpos0 := countP_cazy1_pos h1
  have hTNFP : specTN df t + specFP df t ≠ 0 := by omega
  have hTPFN : specTP df t + specFN df t ≠ 0 := by omega
  have hAll : specTP df t + specFP df t + specFN df t + specTN df t ≠ 0 := by omega
  have val1 : npDiv (specTN df t) (specTN df t + specFP df t)
      = some ((specTN df t : ℚ) / ((specTN df t : ℚ) + (specFP df t : ℚ))) := by
    unfold npDiv
    rw [if_neg hTNFP, Nat.cast_add]
  have val2 : recall_score (df.map (fun r => r.cazy)) (df.map (fun r => r.col t))
      = (specTP df t : ℚ) / ((specTP df t : ℚ) + (specFN df t : ℚ)) := by
    unfold recall_score
    rw [sk_tp_eq, sk_fn_eq df t (binaryMatrix_col_row hb t), if_neg hTPFN]
  have val3 : precision_score (df.map (fun r => r.cazy)) (df.map (fun r => r.col t))
      = (specTP df t : ℚ) / ((specTP df t : ℚ) + (specFP df t : ℚ)) := by
    unfold precision_score
    rw [sk_tp_eq, sk_fp_eq df t (binaryMatrix_cazy_row hb)]
    by_cases hz : specTP df t + specFP df t = 0
    · rw [if_pos hz]
      have hz1 : specTP df t = 0 := by omega
      have hz2 : specFP df t = 0 := by omega
      rw [hz1, hz2]
      norm_num
    · rw [if_neg hz]
  have val4 : f1_score (df.map (fun r => r.cazy)) (df.map (fun r => r.col t))
      = 2 * ((specTP df t : ℚ) / ((specTP df t : ℚ) + (specFP df t : ℚ)))
          * ((specTP df t : ℚ) / ((specTP df t : ℚ) + (specFN df t : ℚ))) /
        (((specTP df t : ℚ) / ((specTP df t : ℚ) + (specFP df t : ℚ)))
          + ((specTP df t : ℚ) / ((specTP df t : ℚ) + (specFN df t : ℚ)))) := by
    unfold f1_score
    rw [val2, val3]
    by_cases hz : ((specTP df t : ℚ) / ((specTP df t : ℚ) + (specFP df t : ℚ)))
        + ((specTP df t : ℚ) / ((specTP df t : ℚ) + (specFN df t : ℚ))) = 0
    · rw [if_pos hz, hz, div_zero]
    · rw [if_neg hz]
  have val5 : npDiv (specTP df t + specTN df t)
      (specTP df t + specFP df t + specFN df t + specTN df t)
      = some (((specTP df t : ℚ) + (specTN df t : ℚ)) /
          ((specTP df t : ℚ) + (specFP df t : ℚ) + (specFN df t : ℚ) + (specTN df t : ℚ))) := by
    unfold npDiv
    rw [if_neg hAll]
    push_cast
    rfl
  unfold evalTool
  rw [hcm]
  show Except.ok
      [StatRecord.mk "Specificity" genome (toolName t)
         (npDiv (cmEntry (df.map (fun r => r.cazy)) (df.map (fun r => r.col t)) 0 0)
           (cmEntry (df.map (fun r => r.cazy)) (df.map (fun r => r.col t)) 0 0 +
            cmEntry (df.map (fun r => r.cazy)) (df.map (fun r => r.col t)) 0 1)),
       StatRecord.mk "Recall" genome (toolName t)
         (some (recall_score (df.map (fun r => r.cazy)) (df.map (fun r => r.col t)))),
       StatRecord.mk "Precision" genome (toolName t)
         (some (precision_score (df.map (fun r => r.cazy)) (df.map (fun r => r.col t)))),
       StatRecord.mk "F1-score" genome (toolName t)
         (some (f1_score (df.map (fun r => r.cazy)) (df.map (fun r => r.col t)))),
       StatRecord.mk "Accuracy" genome (toolName t)
         (npDiv (cmEntry (df.map (fun r => r.cazy)) (df.map (fun r => r.col t)) 1 1 +
                 cmEntry (df.map (fun r => r.cazy)) (df.map (fun r => r.col t)) 0 0)
           (cmEntry (df.map (fun r => r.cazy)) (df.map (fun r => r.col t)) 1 1 +
            cmEntry (df.map (fun r => r.cazy)) (df.map (fun r => r.col t)) 0 1 +
            cmEntry (df.map (fun r => r.cazy)) (df.map (fun r => r.col t)) 1 0 +
            cmEntry (df.map (fun r => r.cazy)) (df.map (fun r => r.col t)) 0 0))]
      = Except.ok (spec_statRecords df genome t)
  rw [cm_TN, cm_FP, cm_FN, cm_TP, val1, val2, val3, val4, val5]
  unfold spec_statRecords
  rfl

/-- C1: on every binary classification matrix whose CAZy ground-truth column
contains both a CAZyme and a non-CAZyme, `evaluate_binary_classification`
returns, in order, for each of the six tools the five statistic records
Specificity = TN/(TN+FP), Recall = TP/(TP+FN), Precision = TP/(TP+FP),
F1 = 2·P·R/(P+R) and Accuracy = (TP+TN)/(TP+FP+FN+TN) computed against the
CAZy column (rational division; for Precision and F1 a zero denominator gives
the 0 that sklearn's zero-division fallback returns), i.e. exactly one record
per (tool, statistic) pair — 30 records in total, 5 per tool. -/
theorem evaluate_binary_matches_spec (df : List ClassificationRow) (genome : String)
    (hb : binaryMatrix df) (h0 : (0 : Nat) ∈ df.map (fun r => r.cazy))
    (h1 : (1 : Nat) ∈ df.map (fun r => r.cazy)) :
    evaluate_binary_classification df genome
      = Except.ok (toolList.flatMap (fun t => spec_statRecords df genome t)) ∧
    (toolList.flatMap (fun t => spec_statRecords df genome t)).length = 30 := by
  constructor
  · unfold evaluate_binary_classification toolList
    simp only [eval_tools,
      evalTool_eq df Tool.dbCAN genome hb h0 h1,
      evalTool_eq df Tool.HMMER genome hb h0 h1,
      evalTool_eq df Tool.Hotpep genome hb h0 h1,
      evalTool_eq df Tool.DIAMOND genome hb h0 h1,
      evalTool_eq df Tool.CUPP genome hb h0 h1,
      evalTool_eq df Tool.eCAMI genome hb h0 h1]
    simp [List.flatMap_cons, List.flatMap_nil]
  · simp [toolList, List.flatMap_cons, List.flatMap_nil, spec_statRecords]

/-- Witness for C1: on the two-row matrix `witnessMatrix` the hypotheses hold
and the evaluator emits exactly the 30 specified records. -/
theorem evaluate_binary_matches_spec_witness :
    binaryMatrix witnessMatrix ∧
    (0 : Nat) ∈ witnessMatrix.map (fun r => r.cazy) ∧
    (1 : Nat) ∈ witnessMatrix.map (fun r => r.cazy) ∧
    evaluate_binary_classification witnessMatrix "genome1"
      = Except.ok (toolList.flatMap (fun t => spec_statRecords witnessMatrix "genome1" t)) ∧
    (toolList.flatMap (fun t => spec_statRecords witnessMatrix "genome1" t)).length = 30 :=
  ⟨by decide, by decide, by decide,
   (evaluate_binary_matches_spec witnessMatrix "genome1" (by decide) (by decide) (by decide)).1,
   (evaluate_binary_matches_spec witnessMatrix "genome1" (by decide) (by decide) (by decide)).2⟩

/-- C5: on a matrix whose CAZy column has no negatives, every tool's
specificity denominator `tn + fp` is zero, yet `evaluate_binary_classification`
does not skip the entry or signal anything: it performs the numpy division,
obtaining `NaN` (modelled `none`), stores that record, and still returns all
30 records — nothing is omitted and no `UndefinedStatistic` is raised. -/
theorem evaluate_appends_nan_on_zero_denominator :
    ∃ L, evaluate_binary_classification undefinedSpecInput "genomeX" = Except.ok L ∧
      L.length = 30 ∧ StatRecord.mk "Specificity" "genomeX" "dbCAN" none ∈ L := by
  refine ⟨((evaluate_binary_classification undefinedSpecInput "genomeX").toOption).getD [],
    rfl, by decide, by decide⟩

/-- C7: for every source array, every resample count `n ≥ 1` and every index
stream, each of the `n` bootstrap resamples has exactly as many rows as the
source array. -/
theorem bootstrap_resample_length (df_array : List (Nat × Nat)) (n : Nat)
    (rng : Nat → Nat → Nat) (hn : 1 ≤ n) :
    ∀ s ∈ bootstrap_samples df_array n rng, s.length = df_array.length := by
  intro s hs
  rcases List.mem_map.mp hs with ⟨j, hj, rfl⟩
  unfold resample
  simp

/-- Witness for C7: the first of two resamples of a two-row array has two
rows. -/
theorem bootstrap_resample_length_witness :
    1 ≤ 2 ∧
    ((bootstrap_samples [(1, 1), (0, 0)] 2 (fun _ i => i)).headD []).length
      = ([(1, 1), (0, 0)] : List (Nat × Nat)).length :=
  ⟨by decide,
   bootstrap_resample_length [(1, 1), (0, 0)] 2 (fun _ i => i) (by decide)
     ((bootstrap_samples [(1, 1), (0, 0)] 2 (fun _ i => i)).headD []) (by decide)⟩

/-- A successful accuracy loop returns one accuracy per sample. -/
theorem accs_of_samples_length :
    ∀ (samples : List (List (Nat × Nat))) (qs : List ℚ),
      accs_of_samples samples = Except.ok qs → qs.length = samples.length
  | [], qs, h => by
    unfold accs_of_samples at h
    cases h
    rfl
  | s :: rest, qs, h => by
    unfold accs_of_samples at h
    cases hc : calc_acc (s.map Prod.snd) (s.map Prod.fst) with
    | none => rw [hc] at h; cases h
    | some q =>
      rw [hc] at h
      cases hr : accs_of_samples rest with
      | error e => rw [hr] at h; cases h
      | ok qs2 =>
        rw [hr] at h
        cases h
        simp [accs_of_samples_length rest qs2 hr]

/-- Shape of a successful per-tool bootstrap run: `n` entries per drawn
dataframe, whose (genome, tool, resample index) projections enumerate the
dataframes in order with resample indices `1..n`. -/
theorem run_dfs_spec (t : Tool) (n : Nat) :
    ∀ (dfs : List ClassificationDF) (R2 : Nat → Nat → Nat → Nat)
      (L : List BootstrapEntry),
      run_dfs t n R2 dfs = Except.ok L →
      L.length = dfs.length * n ∧
      L.map (fun e => (e.1, e.2.1, e.2.2.1)) =
        dfs.flatMap (fun d => (List.range n).map (fun j => (d.genome_id, toolName t, j + 1)))
  | [], R2, L, h => by
    unfold run_dfs at h
    cases h
    simp
  | d :: rest, R2, L, h => by
    unfold run_dfs at h
    cases hb : bootstrap_acc (temp_pairs d t) n (R2 0) with
    | error e => rw [hb] at h; cases h
    | ok bs =>
      rw [hb] at h
      cases hr : run_dfs t n (fun a => R2 (a + 1)) rest with
      | error e => rw [hr] at h; cases h
      | ok es =>
        rw [hr] at h
        cases h
        have hbs : bs.length = n := by
          have hlen := accs_of_samples_length (bootstrap_samples (temp_pairs d t) n (R2 0)) bs hb
          simpa [bootstrap_samples] using hlen
        have IH := run_dfs_spec t n rest (fun a => R2 (a + 1)) es hr
        constructor
        · simp only [List.length_append, List.length_map, List.enum_length, hbs, IH.1,
            List.length_cons]
          ring
        · rw [List.map_append, List.flatMap_cons]
          congr 1
          · rw [List.map_map]
            rw [show ((fun e : BootstrapEntry => (e.1, e.2.1, e.2.2.1)) ∘
                  (fun p : Nat × ℚ => (d.genome_id, toolName t, p.1 + 1, p.2)))
                = ((fun j => (d.genome_id, toolName t, j + 1)) ∘ Prod.fst) from rfl]
            rw [← List.map_map, List.enum_map_fst, hbs]
          · exact IH.2

/-- Shape of a successful full bootstrap run over a list of tools. -/
theorem run_tools_spec (n : Nat) (binary_dfs : List ClassificationDF) :
    ∀ (tools : List Tool) (R : Nat → Nat → Nat → Nat → Nat)
      (L : List BootstrapEntry),
      run_tools binary_dfs n R tools = Except.ok L →
      L.length = tools.length * (binary_dfs.length * n) ∧
      L.map (fun e => (e.1, e.2.1, e.2.2.1)) =
        tools.flatMap (fun t => binary_dfs.flatMap
          (fun d => (List.range n).map (fun j => (d.genome_id, toolName t, j + 1))))
  | [], R, L, h => by
    unfold run_tools at h
    cases h
    simp
  | t :: rest, R, L, h => by
    unfold run_tools at h
    cases h1 : run_dfs t n (R 0) binary_dfs with
    | error e => rw [h1] at h; cases h
    | ok e1 =>
      rw [h1] at h
      cases h2 : run_tools binary_dfs n (fun a => R (a + 1)) rest with
      | error e => rw [h2] at h; cases h
      | ok e2 =>
        rw [h2] at h
        cases h
        have H1 := run_dfs_spec t n binary_dfs (R 0) e1 h1
        have H2 := run_tools_spec n binary_dfs rest (fun a => R (a + 1)) e2 h2
        constructor
        · simp only [List.length_append, H1.1, H2.1, List.length_cons]
          ring
        · rw [List.map_append, H1.2, H2.2, List.flatMap_cons]

/-- C8: whenever `random.sample`'s contract holds (`sel` is a list of
`k` distinct indices, so no test set is drawn twice) and the run completes,
the bootstrap result has length exactly k × 6 tools × n, containing one
(test_set_id, tool, resample_index, accuracy) entry per drawn test set, tool
and resample iteration, resample indices running `1..n`. -/
theorem bootstrap_output_shape (all_binary_dfs : List ClassificationDF) (k : ℤ)
    (n : Nat) (sel : List Nat) (R : Nat → Nat → Nat → Nat → Nat)
    (L : List BootstrapEntry) (hsel : sel.length = k.toNat) (hnd : sel.Nodup)
    (h : bootstrap_binary_classifications all_binary_dfs k n sel R = Except.ok L) :
    L.length = k.toNat * 6 * n ∧
    L.map (fun e => (e.1, e.2.1, e.2.2.1)) =
      toolList.flatMap (fun t =>
        (sel.map (fun i => all_binary_dfs.getD i default)).flatMap
          (fun d => (List.range n).map (fun j => (d.genome_id, toolName t, j + 1)))) := by
  unfold bootstrap_binary_classifications random_sample at h
  by_cases hk : k < 0 ∨ (all_binary_dfs.length : ℤ) < k
  · rw [if_pos hk] at h
    cases h
  · rw [if_neg hk] at h
    have H := run_tools_spec n (sel.map (fun i => all_binary_dfs.getD i default))
      toolList R L h
    constructor
    · have h1 : L.length = 6 * (sel.length * n) := by
        simpa [toolList] using H.1
      rw [h1, hsel]
      ring
    · exact H.2

/-- Witness for C8: one test set, k = 1, n = 1, identity index stream — the
run succeeds and the shape equalities hold. -/
theorem bootstrap_output_shape_witness :
    ([0] : List Nat).length = (1 : ℤ).toNat ∧ ([0] : List Nat).Nodup ∧
    ∃ L, bootstrap_binary_classifications [exampleDF] 1 1 [0] (fun _ _ _ i => i)
        = Except.ok L ∧
      (L.length = (1 : ℤ).toNat * 6 * 1 ∧
       L.map (fun e => (e.1, e.2.1, e.2.2.1)) =
         toolList.flatMap (fun t =>
           (([0] : List Nat).map (fun i => [exampleDF].getD i default)).flatMap
             (fun d => (List.range 1).map (fun j => (d.genome_id, toolName t, j + 1))))) := by
  refine ⟨by decide, by decide,
    ((bootstrap_binary_classifications [exampleDF] 1 1 [0] (fun _ _ _ i => i)).toOption).getD [],
    rfl, ?_⟩
  exact bootstrap_output_shape [exampleDF] 1 1 [0] (fun _ _ _ i => i) _
    (by decide) (by decide) rfl

/-- With no drawn dataframes every tool contributes nothing. -/
theorem run_tools_nil_dfs (n : Nat) :
    ∀ (tools : List Tool) (R : Nat → Nat → Nat → Nat → Nat),
      run_tools [] n R tools = Except.ok []
  | [], R => rfl
  | t :: rest, R => by
    unfold run_tools
    rw [show run_dfs t n (R 0) [] = Except.ok [] from rfl,
        run_tools_nil_dfs n rest (fun a => R (a + 1))]
    rfl

/-- With a resample count of zero every dataframe contributes nothing. -/
theorem run_dfs_zero_n (t : Tool) :
    ∀ (dfs : List ClassificationDF) (R2 : Nat → Nat → Nat → Nat),
      run_dfs t 0 R2 dfs = Except.ok []
  | [], R2 => rfl
  | d :: rest, R2 => by
    unfold run_dfs
    rw [show bootstrap_acc (temp_pairs d t) 0 (R2 0) = Except.ok [] from rfl,
        run_dfs_zero_n t rest (fun a => R2 (a + 1))]
    rfl

/-- With a resample count of zero the whole run returns no entries. -/
theorem run_tools_zero_n (binary_dfs : List ClassificationDF) :
    ∀ (tools : List Tool) (R : Nat → Nat → Nat → Nat → Nat),
      run_tools binary_dfs 0 R tools = Except.ok []
  | [], R => rfl
  | t :: rest, R => by
    unfold run_tools
    rw [run_dfs_zero_n t binary_dfs (R 0),
        run_tools_zero_n binary_dfs rest (fun a => R (a + 1))]
    rfl

/-- C9 (amended): a negative `k` or a `k` exceeding the number of available
test sets is a fatal `ValueError` raised by `random.sample` before any
resampling; but `k = 0` (an empty draw) and a non-positive resample count `n`
are accepted without any validation — the run completes with an empty result
table instead of signalling `InvalidConfiguration`. -/
theorem bootstrap_configuration_validation (all_binary_dfs : List ClassificationDF)
    (k : ℤ) (n : Nat) (sel : List Nat) (R : Nat → Nat → Nat → Nat → Nat) :
    ((k < 0 ∨ (all_binary_dfs.length : ℤ) < k) →
      bootstrap_binary_classifications all_binary_dfs k n sel R
        = Except.error "ValueError: Sample larger than population or is negative") ∧
    (sel = [] → ¬(k < 0 ∨ (all_binary_dfs.length : ℤ) < k) →
      bootstrap_binary_classifications all_binary_dfs k n sel R = Except.ok []) ∧
    (n = 0 → ¬(k < 0 ∨ (all_binary_dfs.length : ℤ) < k) →
      bootstrap_binary_classifications all_binary_dfs k n sel R = Except.ok []) := by
  refine ⟨?_, ?_, ?_⟩
  · intro hk
    unfold bootstrap_binary_classifications random_sample
    rw [if_pos hk]
  · intro hsel hk
    unfold bootstrap_binary_classifications random_sample
    rw [if_neg hk, hsel]
    exact run_tools_nil_dfs n toolList R
  · intro hn hk
    unfold bootstrap_binary_classifications random_sample
    rw [if_neg hk, hn]
    exact run_tools_zero_n (sel.map (fun i => all_binary_dfs.getD i default)) toolList R

/-- Counterexample for C9 as stated: with one available test set, the
non-positive configuration k = 0, n = 0 is accepted — the run completes and
returns an empty result table, and no `InvalidConfiguration` (or any other)
error is raised at startup or later. -/
theorem nonpositive_configuration_accepted :
    bootstrap_binary_classifications [exampleDF] 0 0 [] (fun _ _ _ i => i)
      = Except.ok [] := by
  rfl

/-- Witness for C9 (amended): k = 2 with one test set errors; a k = 0 draw and
an n = 0 resample count are accepted. -/
theorem bootstrap_configuration_validation_witness :
    bootstrap_binary_classifications [exampleDF] 2 1 [0] (fun _ _ _ i => i)
      = Except.error "ValueError: Sample larger than population or is negative" ∧
    bootstrap_binary_classifications [exampleDF] 1 5 [] (fun _ _ _ i => i)
      = Except.ok [] ∧
    bootstrap_binary_classifications [exampleDF] 1 0 [0] (fun _ _ _ i => i)
      = Except.ok [] :=
  ⟨(bootstrap_configuration_validation [exampleDF] 2 1 [0] (fun _ _ _ i => i)).1
     (Or.inr (by decide)),
   (bootstrap_configuration_validation [exampleDF] 1 5 [] (fun _ _ _ i => i)).2.1
     rfl (by decide),
   (bootstrap_configuration_validation [exampleDF] 1 0 [0] (fun _ _ _ i => i)).2.2
     rfl (by decide)⟩

end Pyrewton
